import Mathlib

/-!
Shallow embedding of the mapper-influences backend (Rust) in Lean 4,
with theorems checking the natural-language specification against it.

Each definition mirrors a function of the source tree `src/`; source
locations are given in the doc comments.  Queues (`VecDeque`) are lists
whose head is the front, machine integers (`u8`, `u32`) are `Nat`,
instants are `Nat` seconds, and fallible operations return `Except`.
-/

namespace MapperInfluences

/-! ## Data model (src/database/user.rs, src/osu_api/mod.rs) -/

/-- `Group` from `src/osu_api/mod.rs`. -/
structure Group where
  colour : Option String
  name : String
  short_name : String
deriving DecidableEq, Repr

/-- `UserSmall` from `src/database/user.rs` (actor reference embedded in
activities). -/
structure UserSmall where
  id : Nat
  username : String
  avatar_url : String
  groups : List Group
  country_code : String
  country_name : String
  ranked_maps : Nat
  mentions : Option Nat
deriving DecidableEq, Repr

/-- `OsuBeatmapSmall` from `src/osu_api/mod.rs`.  The `difficulty_rating`
field (`f32`) is omitted: floating point, read by no verified operation. -/
structure OsuBeatmapSmall where
  id : Nat
  mode : String
  beatmapset_id : Nat
  version : String
  user_id : Nat
  user_name : String
  user_avatar_url : String
  title : String
  artist : String
  cover : String
deriving DecidableEq, Repr

/-- `BeatmapEnum` from `src/osu_api/mod.rs`: a beatmap is either a bare id
or an enriched object. -/
inductive BeatmapEnum where
  | All (beatmap : OsuBeatmapSmall)
  | Id (id : Nat)
deriving DecidableEq, Repr

/-- `impl GetID for BeatmapEnum` (src/osu_api/mod.rs). -/
def BeatmapEnum.get_id : BeatmapEnum → Nat
  | .All beatmap => beatmap.id
  | .Id id => id

/-! ## Activities (src/handlers/activity.rs) -/

/-- `ActivityType` from `src/handlers/activity.rs`, lines 45-80. -/
inductive ActivityType where
  | Login
  | AddInfluence (influence : UserSmall)
  | RemoveInfluence (influence : UserSmall)
  | AddUserBeatmap (beatmap : BeatmapEnum)
  | RemoveUserBeatmap (beatmap : BeatmapEnum)
  | AddInfluenceBeatmap (influence : UserSmall) (beatmap : BeatmapEnum)
  | RemoveInfluenceBeatmap (influence : UserSmall) (beatmap : BeatmapEnum)
  | EditInfluenceDesc (influence : UserSmall) (description : String)
  | EditInfluenceType (influence : UserSmall) (influence_type : Nat)
  | EditBio (bio : String)
deriving DecidableEq, Repr

/-- `Activity` from `src/handlers/activity.rs`, lines 35-43.  `created_at`
(`Datetime`) is seconds since epoch. -/
structure Activity where
  id : String
  user : UserSmall
  created_at : Nat
  activity_type : ActivityType
deriving DecidableEq, Repr

/-- `ActivityType::get_beatmap_id` (src/handlers/activity.rs, lines
109-121): only id-form beatmaps yield an id. -/
def ActivityType.get_beatmap_id : ActivityType → Option Nat
  | .AddInfluenceBeatmap _ beatmap
  | .RemoveInfluenceBeatmap _ beatmap
  | .AddUserBeatmap beatmap
  | .RemoveUserBeatmap beatmap =>
    match beatmap with
    | .Id id => some id
    | .All _ => none
  | _ => none

/-- `ActivityType::swap_beatmap_enum` (src/handlers/activity.rs, lines
123-139). -/
def ActivityType.swap_beatmap_enum (a : ActivityType) (beatmap_with_data : BeatmapEnum) :
    ActivityType :=
  match a with
  | .AddInfluenceBeatmap influence _ => .AddInfluenceBeatmap influence beatmap_with_data
  | .RemoveInfluenceBeatmap influence _ => .RemoveInfluenceBeatmap influence beatmap_with_data
  | .AddUserBeatmap _ => .AddUserBeatmap beatmap_with_data
  | .RemoveUserBeatmap _ => .RemoveUserBeatmap beatmap_with_data
  | other => other

/-! ## Spam filter (src/handlers/activity.rs, `spam_prevention`) -/

/-- The stateful scan of the `ADD_USER_BEATMAP` arm of `spam_prevention`
(src/handlers/activity.rs, lines 204-228): `locked_queue.iter().any(..)`
with the closure-captured counter `current_false` (`max_false = 5`).
`uid`/`newId` are the new activity's actor id and beatmap id. -/
def aubScan (uid newId : Nat) : Nat → List Activity → Bool
  | _, [] => false
  | current_false, old :: rest =>
    if uid = old.user.id then
      match old.activity_type with
      | .AddUserBeatmap old_beatmap =>
        if newId ≠ old_beatmap.get_id ∧ current_false < 5 then
          aubScan uid newId (current_false + 1) rest
        else
          true
      | _ => aubScan uid newId current_false rest
    else aubScan uid newId current_false rest

/-- The stateful scan of the `ADD_INFLUENCE_BEATMAP` arm of
`spam_prevention` (src/handlers/activity.rs, lines 280-307): `max_false = 2`,
and the guard keeps the source's precedence
`a != b || c != d && current_false < max_false`. -/
def aibScan (uid newInfluenceId newBeatmapId : Nat) : Nat → List Activity → Bool
  | _, [] => false
  | current_false, old :: rest =>
    if uid = old.user.id then
      match old.activity_type with
      | .AddInfluenceBeatmap old_influence old_beatmap =>
        if newInfluenceId ≠ old_influence.id ∨
            (newBeatmapId ≠ old_beatmap.get_id ∧ current_false < 2) then
          aibScan uid newInfluenceId newBeatmapId (current_false + 1) rest
        else
          true
      | _ => aibScan uid newInfluenceId newBeatmapId current_false rest
    else aibScan uid newInfluenceId newBeatmapId current_false rest

/-- Shared predicate of the `ADD_INFLUENCE` / `EDIT_INFLUENCE_DESC` /
`EDIT_INFLUENCE_TYPE` arms: the old activity targets the same influence
(src/handlers/activity.rs, lines 235-248 and 262-276). -/
def influenceMatch (newInfluenceId : Nat) (old : ActivityType) : Bool :=
  match old with
  | .AddInfluence old_influence
  | .EditInfluenceDesc old_influence _
  | .EditInfluenceType old_influence _ => newInfluenceId = old_influence.id
  | _ => false

/-- `ActivityTracker::spam_prevention` (src/handlers/activity.rs, lines
197-310).  `true` means the activity is accepted (not spam); the queue is
given front first.  The final `_ => Ok(false)` arm covers `Login`,
`RemoveInfluence`, `RemoveUserBeatmap` and `RemoveInfluenceBeatmap`. -/
def spam_prevention (queue : List Activity) (new_activity : Activity) : Bool :=
  match new_activity.activity_type with
  | .EditBio _ =>
    !(queue.any fun old => new_activity.user.id = old.user.id)
  | .AddUserBeatmap new_beatmap =>
    !(aubScan new_activity.user.id new_beatmap.get_id 0 queue)
  | .AddInfluence new_influence =>
    !(queue.any fun old =>
      new_activity.user.id = old.user.id && influenceMatch new_influence.id old.activity_type)
  | .EditInfluenceDesc new_influence _ =>
    !(queue.any fun old =>
      new_activity.user.id = old.user.id && influenceMatch new_influence.id old.activity_type)
  | .EditInfluenceType new_influence _ =>
    !(queue.any fun old =>
      new_activity.user.id = old.user.id && influenceMatch new_influence.id old.activity_type)
  | .AddInfluenceBeatmap new_influence new_beatmap =>
    !(aibScan new_activity.user.id new_influence.id new_beatmap.get_id 0 queue)
  | _ => false

/-- `ActivityTracker::add_new_activity_to_queue` (src/handlers/activity.rs,
lines 176-183): push to the back, then pop the front if the length exceeds
`queue_size`. -/
def add_new_activity_to_queue (queue_size : Nat) (queue : List Activity)
    (new_activity : Activity) : List Activity :=
  let pushed := queue ++ [new_activity]
  if queue_size < pushed.length then pushed.tail else pushed

/-! ## Streaming loop step (src/handlers/activity.rs, `start_loop`) -/

/-- The tracker state the streaming loop touches: the mutex-guarded queue
and the configured capacity (src/handlers/activity.rs, lines 142-148). -/
structure TrackerState where
  activity_queue : List Activity
  queue_size : Nat
deriving DecidableEq, Repr

/-- `spam_prevention` as the Rust method runs: it locks the queue, reads
it, and hands the state back untouched (src/handlers/activity.rs, lines
197-198 take `&self` and only iterate the locked queue). -/
def spamPreventionLocked (s : TrackerState) (new_activity : Activity) :
    Bool × TrackerState :=
  (spam_prevention s.activity_queue new_activity, s)

/-- One iteration of the streaming loop body for a create notification
(src/handlers/activity.rs, lines 455-515): run the spam filter (reject ⇒
`continue`), enrich a bare beatmap id through the cached requester
(`fetch`; a failed fetch ⇒ `continue`), append to the queue and broadcast.
The returned list holds the broadcast activities (serialization to JSON is
modelled by broadcasting the activity value itself). -/
def stepLoop (s : TrackerState) (new_activity : Activity)
    (fetch : Nat → Option OsuBeatmapSmall) : TrackerState × List Activity :=
  if spam_prevention s.activity_queue new_activity then
    match new_activity.activity_type.get_beatmap_id with
    | some beatmap_id =>
      match fetch beatmap_id with
      | some new_beatmap =>
        let enriched : Activity :=
          { new_activity with
            activity_type :=
              new_activity.activity_type.swap_beatmap_enum (.All new_beatmap) }
        (⟨add_new_activity_to_queue s.queue_size s.activity_queue enriched, s.queue_size⟩,
          [enriched])
      | none => (s, [])
    | none =>
      (⟨add_new_activity_to_queue s.queue_size s.activity_queue new_activity, s.queue_size⟩,
        [new_activity])
  else (s, [])

/-! ## Retry harness (src/retry.rs) -/

/-- The mutable fields of `Retry<T>` that drive the cooldown computation
(src/retry.rs, lines 31-37). -/
structure RetryState where
  cooldown_fibo_last : Nat
  cooldown : Nat
deriving DecidableEq, Repr

/-- `Retry::new` initialises `cooldown_fibo_last = 0`, `cooldown = 1`
(src/retry.rs, lines 40-48). -/
def retryInit : RetryState := ⟨0, 1⟩

/-- The cooldown computation of one failed attempt with retry semantics
(src/retry.rs, lines 76-83): returns the seconds slept and the state after
the attempt. -/
def retryStep (longest_cooldown : Nat) (s : RetryState) : Nat × RetryState :=
  if longest_cooldown < s.cooldown then
    (longest_cooldown, s)
  else
    let fibo_temp := s.cooldown
    let cooldown := s.cooldown + s.cooldown_fibo_last
    (cooldown, ⟨fibo_temp, cooldown⟩)

/-- The seconds slept over `n` consecutive failures with retry semantics,
starting from state `s` (iterating src/retry.rs, lines 76-85). -/
def sleeps (longest_cooldown : Nat) (s : RetryState) : Nat → List Nat
  | 0 => []
  | n + 1 =>
    let step := retryStep longest_cooldown s
    step.1 :: sleeps longest_cooldown step.2 n

/-- `retry_until_success` over a run of `n` consecutive failures followed
by a success returning `v` (src/retry.rs, lines 50-90): the value is
returned as is — the function cannot return an error — after sleeping the
durations of `sleeps`. -/
def retry_until_success {V : Type} (longest_cooldown : Nat) (n : Nat) (v : V) :
    V × List Nat :=
  (v, sleeps longest_cooldown retryInit n)

/-! ## TTL cache (src/custom_cache.rs) -/

/-- `CustomCache` (src/custom_cache.rs, lines 16-19): the
`LinkedHashMap<K, (Instant, V)>` is a list of `(key, (insertion time,
value))` in insertion order, front first; `expire_in` is seconds. -/
structure CustomCache (K V : Type) where
  store : List (K × Nat × V)
  expire_in : Nat

/-- `CustomCache::new` (src/custom_cache.rs, lines 22-27). -/
def CustomCache.new (K V : Type) (expire_in : Nat) : CustomCache K V :=
  ⟨[], expire_in⟩

/-- The loop body of `discard_expired` (src/custom_cache.rs, lines 28-36):
pop the front while its age exceeds the TTL, stop at the first fresh
entry.  `now - t` is the entry's elapsed age. -/
def discardExpiredStore {K V : Type} (now ttl : Nat) :
    List (K × Nat × V) → List (K × Nat × V)
  | [] => []
  | front :: rest =>
    if ttl < now - front.2.1 then discardExpiredStore now ttl rest
    else front :: rest

/-- `CustomCache::discard_expired` (src/custom_cache.rs, lines 28-36). -/
def discard_expired {K V : Type} (now : Nat) (c : CustomCache K V) :
    CustomCache K V :=
  { c with store := discardExpiredStore now c.expire_in c.store }

/-- Key lookup in the linked map (`self.store.get(k)`). -/
def storeGet {K V : Type} [DecidableEq K] (k : K) (store : List (K × Nat × V)) :
    Option V :=
  (store.find? fun entry => entry.1 = k).map fun entry => entry.2.2

/-- `Cached::cache_get` (src/custom_cache.rs, lines 64-71): sweep, then
look up.  Returns the read value and the swept cache. -/
def cache_get {K V : Type} [DecidableEq K] (now : Nat) (k : K)
    (c : CustomCache K V) : Option V × CustomCache K V :=
  let swept := discard_expired now c
  (storeGet k swept.store, swept)

/-- `Cached::cache_set` (src/custom_cache.rs, lines 85-89):
`LinkedHashMap::insert` replaces an existing key and moves the entry to
the back with a fresh timestamp. -/
def cache_set {K V : Type} [DecidableEq K] (now : Nat) (k : K) (v : V)
    (c : CustomCache K V) : CustomCache K V :=
  { c with store := (c.store.filter fun entry => entry.1 ≠ k) ++ [(k, now, v)] }

/-- `Cached::cache_size` (src/custom_cache.rs, lines 103-105): no sweep. -/
def cache_size {K V : Type} (c : CustomCache K V) : Nat :=
  c.store.length

/-- `MultipleCacheResults` (src/custom_cache.rs, lines 10-14); the
`HashMap` of hits is its list of key-value pairs in key order. -/
structure MultipleCacheResults (K V : Type) where
  hits : List (K × V)
  misses : List K
deriving Repr

/-- `CustomCache::get_multiple` (src/custom_cache.rs, lines 40-54): one
sweep, then each key is a hit or a miss.  Returns the result and the swept
cache. -/
def get_multiple {K V : Type} [DecidableEq K] (now : Nat) (keys : List K)
    (c : CustomCache K V) : MultipleCacheResults K V × CustomCache K V :=
  let swept := discard_expired now c
  (⟨keys.filterMap fun k => (storeGet k swept.store).map fun v => (k, v),
    keys.filter fun k => (storeGet k swept.store).isNone⟩,
    swept)

/-! ## Errors (src/error.rs) -/

/-- The `AppError` variants reached by the verified operations
(src/error.rs). -/
inductive AppError where
  | StringTooLong
  | MissingUser (id : Nat)
  | MissingInfluence
  | NonExistingMap (id : Nat)
  | JwtVerification
  | MissingTokenCookie
deriving DecidableEq, Repr

/-- The HTTP status mapping of `AppError::into_response` (src/error.rs,
lines 102-110), restricted to the embedded variants. -/
def statusCode : AppError → Nat
  | .MissingTokenCookie | .JwtVerification => 401
  | .StringTooLong => 422
  | .MissingInfluence | .MissingUser _ | .NonExistingMap _ => 404

/-! ## Session tokens (src/jwt.rs) -/

/-- `AuthData` (src/jwt.rs, lines 10-15). -/
structure AuthData where
  osu_token : String
  user_id : Nat
  username : String
deriving DecidableEq, Repr

/-- The claim set `jwt_simple` signs: issue and expiry instants (seconds
since epoch) around the custom `AuthData`
(`Claims::with_custom_claims`). -/
structure JwtClaims where
  issued_at : Nat
  expires_at : Nat
  custom : AuthData
deriving DecidableEq, Repr

/-- An HMAC-SHA256 tag over the serialized claims, modelled as the
injective pairing of key and claims. -/
def hmacTag (key : String) (claims : JwtClaims) : String × JwtClaims :=
  (key, claims)

/-- A signed session token: `header.payload.signature` carries the claims
and the tag. -/
structure Token where
  claims : JwtClaims
  tag : String × JwtClaims
deriving DecidableEq, Repr

/-- The default `time_tolerance` of `jwt_simple` verification (15 min), in
seconds. -/
def jwtTimeTolerance : Nat := 900

/-- `JwtUtil::create_jwt` (src/jwt.rs, lines 29-45): build `AuthData`,
wrap it in claims valid for `duration` seconds from `now`, sign with the
key. -/
def create_jwt (key : String) (id : Nat) (username osu_token : String)
    (duration : Nat) (now : Nat) : Token :=
  let additional_data : AuthData := ⟨osu_token, id, username⟩
  let claims : JwtClaims := ⟨now, now + duration, additional_data⟩
  ⟨claims, hmacTag key claims⟩

/-- `JwtUtil::verify_jwt` (src/jwt.rs, lines 47-50): `jwt_simple` checks
the tag and that `now` lies within the claims' validity window (with the
default tolerance), then yields the custom payload. -/
def verify_jwt (key : String) (token : Token) (now : Nat) :
    Except AppError AuthData :=
  if token.tag = hmacTag key token.claims then
    if now ≤ token.claims.expires_at + jwtTimeTolerance ∧
        token.claims.issued_at ≤ now + jwtTimeTolerance then
      .ok token.claims.custom
    else .error .JwtVerification
  else .error .JwtVerification

/-! ## User and influence handlers (src/handlers/user.rs,
src/handlers/influence.rs, src/handlers/mod.rs, src/database/user.rs) -/

/-- The bio column of the user table: the stored bio of each existing
user id. -/
def BioTable := List (Nat × String)

/-- Stored bio of a user. -/
def bioOf (db : BioTable) (user_id : Nat) : Option String :=
  (db.find? fun row => row.1 = user_id).map fun row => row.2

/-- `DatabaseClient::update_bio` (src/database/user.rs, lines 214-227):
`UPDATE user SET bio = $bio`; a missing user surfaces as
`MissingUser`. -/
def update_bio (db : BioTable) (user_id : Nat) (bio : String) :
    Except AppError BioTable :=
  if db.any fun row => row.1 = user_id then
    .ok (db.map fun row => if row.1 = user_id then (row.1, bio) else row)
  else .error (.MissingUser user_id)

/-- `update_user_bio` (src/handlers/user.rs, lines 162-169): the handler
of `PATCH /users/bio` forwards the bio to the database unmodified — there
is no length check on this path. -/
def update_user_bio (auth_user_id : Nat) (bio : String) (db : BioTable) :
    Except AppError BioTable :=
  update_bio db auth_user_id bio

/-- The description column of the influence table, keyed by
(influencer id, influenced-to id). -/
def InfluenceTable := List ((Nat × Nat) × String)

/-- `DatabaseClient::update_influence_description`: in-place edit of an
existing edge; a missing edge surfaces as `MissingInfluence`. -/
def db_update_influence_description (db : InfluenceTable)
    (user_id influenced_to : Nat) (description : String) :
    Except AppError InfluenceTable :=
  if db.any fun row => row.1 = (user_id, influenced_to) then
    .ok (db.map fun row =>
      if row.1 = (user_id, influenced_to) then (row.1, description) else row)
  else .error .MissingInfluence

/-- `update_influence_description` (src/handlers/influence.rs, lines
145-153): `MAX_DESC_LENGTH = 5000`; longer descriptions are rejected with
`StringTooLong` before any database write. -/
def update_influence_description (auth_user_id influenced_to : Nat)
    (description : String) (db : InfluenceTable) :
    Except AppError InfluenceTable :=
  if 5000 < description.length then .error .StringTooLong
  else db_update_influence_description db auth_user_id influenced_to description

/-- `check_multiple_maps` (src/handlers/mod.rs, lines 106-126) as the
source writes it: `fetched_ids` are the keys of the map returned by
`get_beatmaps_only` for the submitted ids, and the filter keeps the
fetched keys that are *not* among the submitted ids. -/
def check_multiple_maps (submitted fetched_ids : List Nat) :
    Except AppError Unit :=
  match (fetched_ids.filter fun requested_map => !submitted.contains requested_map).head? with
  | some first_missing_map => .error (.NonExistingMap first_missing_map)
  | none => .ok ()

/-! ## Characterization helpers for the spam filter -/

/-- `old` is an `ADD_USER_BEATMAP` by actor `uid` for exactly the beatmap
`bid`. -/
def aubSameId (uid bid : Nat) (old : Activity) : Bool :=
  if uid = old.user.id then
    match old.activity_type with
    | .AddUserBeatmap old_beatmap => bid = old_beatmap.get_id
    | _ => false
  else false

/-- `old` is an `ADD_USER_BEATMAP` by actor `uid` for a beatmap other than
`bid`. -/
def aubDiffId (uid bid : Nat) (old : Activity) : Bool :=
  if uid = old.user.id then
    match old.activity_type with
    | .AddUserBeatmap old_beatmap => bid ≠ old_beatmap.get_id
    | _ => false
  else false

lemma aubScan_characterization (uid bid : Nat) (l : List Activity) :
    ∀ cf : Nat, cf ≤ 5 →
      (aubScan uid bid cf l = true ↔
        (∃ old ∈ l, aubSameId uid bid old = true) ∨
          6 ≤ (l.filter (aubDiffId uid bid)).length + cf) := by
  induction l with
  | nil =>
    intro cf hcf
    simp [aubScan]
    omega
  | cons old rest ih =>
    intro cf hcf
    by_cases huser : uid = old.user.id
    · cases hty : old.activity_type with
      | AddUserBeatmap ob =>
        by_cases hid : bid = ob.get_id
        · have hsame : aubSameId uid bid old = true := by
            simp [aubSameId, huser, hty, hid]
          have hscan : aubScan uid bid cf (old :: rest) = true := by
            simp [aubScan, huser, hty, hid]
          simp [hscan, hsame]
        · have hsame : aubSameId uid bid old = false := by
            simp [aubSameId, huser, hty, hid]
          have hdiff : aubDiffId uid bid old = true := by
            simp [aubDiffId, huser, hty, hid]
          have hfil : ((old :: rest).filter (aubDiffId uid bid)).length
              = (rest.filter (aubDiffId uid bid)).length + 1 := by
            simp [hdiff]
          have hex : (∃ o ∈ old :: rest, aubSameId uid bid o = true)
              ↔ ∃ o ∈ rest, aubSameId uid bid o = true := by
            simp [hsame]
          by_cases hcf5 : cf < 5
          · have hscan : aubScan uid bid cf (old :: rest) =
                aubScan uid bid (cf + 1) rest := by
              simp [aubScan, huser, hty, hid, hcf5]
            have harith : (rest.filter (aubDiffId uid bid)).length + (cf + 1)
                = (rest.filter (aubDiffId uid bid)).length + 1 + cf := by omega
            rw [hscan, ih (cf + 1) (by omega), hfil, hex, harith]
          · have hscan : aubScan uid bid cf (old :: rest) = true := by
              simp [aubScan, huser, hty, hid, hcf5]
            have hlen : 6 ≤ ((old :: rest).filter (aubDiffId uid bid)).length + cf := by
              rw [hfil]
              omega
            simp [hscan, hlen]
      | Login =>
        have hsame : aubSameId uid bid old = false := by simp [aubSameId, huser, hty]
        have hdiff : aubDiffId uid bid old = false := by simp [aubDiffId, huser, hty]
        have hscan : aubScan uid bid cf (old :: rest) = aubScan uid bid cf rest := by
          simp [aubScan, huser, hty]
        rw [hscan, ih cf hcf]
        simp [hsame, hdiff]
      | AddInfluence i =>
        have hsame : aubSameId uid bid old = false := by simp [aubSameId, huser, hty]
        have hdiff : aubDiffId uid bid old = false := by simp [aubDiffId, huser, hty]
        have hscan : aubScan uid bid cf (old :: rest) = aubScan uid bid cf rest := by
          simp [aubScan, huser, hty]
        rw [hscan, ih cf hcf]
        simp [hsame, hdiff]
      | RemoveInfluence i =>
        have hsame : aubSameId uid bid old = false := by simp [aubSameId, huser, hty]
        have hdiff : aubDiffId uid bid old = false := by simp [aubDiffId, huser, hty]
        have hscan : aubScan uid bid cf (old :: rest) = aubScan uid bid cf rest := by
          simp [aubScan, huser, hty]
        rw [hscan, ih cf hcf]
        simp [hsame, hdiff]
      | RemoveUserBeatmap b =>
        have hsame : aubSameId uid bid old = false := by simp [aubSameId, huser, hty]
        have hdiff : aubDiffId uid bid old = false := by simp [aubDiffId, huser, hty]
        have hscan : aubScan uid bid cf (old :: rest) = aubScan uid bid cf rest := by
          simp [aubScan, huser, hty]
        rw [hscan, ih cf hcf]
        simp [hsame, hdiff]
      | AddInfluenceBeatmap i b =>
        have hsame : aubSameId uid bid old = false := by simp [aubSameId, huser, hty]
        have hdiff : aubDiffId uid bid old = false := by simp [aubDiffId, huser, hty]
        have hscan : aubScan uid bid cf (old :: rest) = aubScan uid bid cf rest := by
          simp [aubScan, huser, hty]
        rw [hscan, ih cf hcf]
        simp [hsame, hdiff]
      | RemoveInfluenceBeatmap i b =>
        have hsame : aubSameId uid bid old = false := by simp [aubSameId, huser, hty]
        have hdiff : aubDiffId uid bid old = false := by simp [aubDiffId, huser, hty]
        have hscan : aubScan uid bid cf (old :: rest) = aubScan uid bid cf rest := by
          simp [aubScan, huser, hty]
        rw [hscan, ih cf hcf]
        simp [hsame, hdiff]
      | EditInfluenceDesc i d =>
        have hsame : aubSameId uid bid old = false := by simp [aubSameId, huser, hty]
        have hdiff : aubDiffId uid bid old = false := by simp [aubDiffId, huser, hty]
        have hscan : aubScan uid bid cf (old :: rest) = aubScan uid bid cf rest := by
          simp [aubScan, huser, hty]
        rw [hscan, ih cf hcf]
        simp [hsame, hdiff]
      | EditInfluenceType i t =>
        have hsame : aubSameId uid bid old = false := by simp [aubSameId, huser, hty]
        have hdiff : aubDiffId uid bid old = false := by simp [aubDiffId, huser, hty]
        have hscan : aubScan uid bid cf (old :: rest) = aubScan uid bid cf rest := by
          simp [aubScan, huser, hty]
        rw [hscan, ih cf hcf]
        simp [hsame, hdiff]
      | EditBio b =>
        have hsame : aubSameId uid bid old = false := by simp [aubSameId, huser, hty]
        have hdiff : aubDiffId uid bid old = false := by simp [aubDiffId, huser, hty]
        have hscan : aubScan uid bid cf (old :: rest) = aubScan uid bid cf rest := by
          simp [aubScan, huser, hty]
        rw [hscan, ih cf hcf]
        simp [hsame, hdiff]
    · have hsame : aubSameId uid bid old = false := by simp [aubSameId, huser]
      have hdiff : aubDiffId uid bid old = false := by simp [aubDiffId, huser]
      have hscan : aubScan uid bid cf (old :: rest) = aubScan uid bid cf rest := by
        simp [aubScan, huser]
      rw [hscan, ih cf hcf]
      simp [hsame, hdiff]

/-- A sample actor used by concrete scenarios. -/
def sampleUser (id : Nat) : UserSmall :=
  ⟨id, "user", "avatar", [], "TR", "Turkiye", 0, none⟩

/-! ## Claim C1 — EDIT_BIO spam rule -/

/-- C1, counterexample: with queue `[LOGIN(U)]`, a new `EDIT_BIO` by the
same actor `U` is rejected by `spam_prevention`, not accepted as the claim
states: the `EDIT_BIO` arm matches on the actor id alone and never looks
at the prior activity's kind. -/
theorem editBio_after_login_is_rejected :
    spam_prevention [⟨"l1", sampleUser 7, 0, .Login⟩]
      ⟨"b1", sampleUser 7, 1, .EditBio "x"⟩ = false := by
  rfl

/-- C1, amended: a new `EDIT_BIO` activity is rejected exactly when the
queue already contains *any* prior activity by the same actor, of any
kind; it is accepted exactly when no queued activity has the same actor
id. -/
theorem editBio_rejected_iff_any_prior_same_actor (queue : List Activity)
    (i : String) (u : UserSmall) (t : Nat) (bio : String) :
    spam_prevention queue ⟨i, u, t, .EditBio bio⟩ = true ↔
      ∀ old ∈ queue, u.id ≠ old.user.id := by
  simp [spam_prevention]

/-! ## Claim C2 — the remaining event kinds -/

/-- C2, counterexample: a `LOGIN` activity on the empty queue is rejected
(`spam_prevention` returns `false`), not accepted: the catch-all arm of
`spam_prevention` is `Ok(false)`. -/
theorem login_activity_rejected_on_empty_queue :
    spam_prevention [] ⟨"l1", sampleUser 7, 0, .Login⟩ = false := by
  rfl

/-- C2, amended: for every queue state, a new activity of type `LOGIN`,
`REMOVE_INFLUENCE`, `REMOVE_USER_BEATMAP` or `REMOVE_INFLUENCE_BEATMAP`
is *always* rejected by `spam_prevention` (the catch-all arm returns
`false`), so in the streaming loop it is neither appended to the ring nor
broadcast. -/
theorem other_event_types_always_rejected (queue : List Activity)
    (i : String) (u influence : UserSmall) (t : Nat) (beatmap : BeatmapEnum)
    (s : TrackerState) (fetch : Nat → Option OsuBeatmapSmall) :
    spam_prevention queue ⟨i, u, t, .Login⟩ = false ∧
    spam_prevention queue ⟨i, u, t, .RemoveInfluence influence⟩ = false ∧
    spam_prevention queue ⟨i, u, t, .RemoveUserBeatmap beatmap⟩ = false ∧
    spam_prevention queue ⟨i, u, t, .RemoveInfluenceBeatmap influence beatmap⟩ = false ∧
    stepLoop s ⟨i, u, t, .Login⟩ fetch = (s, []) ∧
    stepLoop s ⟨i, u, t, .RemoveInfluence influence⟩ fetch = (s, []) ∧
    stepLoop s ⟨i, u, t, .RemoveUserBeatmap beatmap⟩ fetch = (s, []) ∧
    stepLoop s ⟨i, u, t, .RemoveInfluenceBeatmap influence beatmap⟩ fetch = (s, []) := by
  refine ⟨rfl, rfl, rfl, rfl, ?_, ?_, ?_, ?_⟩ <;> simp [stepLoop, spam_prevention]

/-! ## Claim C3 — ADD_USER_BEATMAP spam rule -/

/-- C3, counterexample: with queue `[ADD_USER_BEATMAP(U,1),
ADD_USER_BEATMAP(U,2), ADD_USER_BEATMAP(U,3)]`, a new
`ADD_USER_BEATMAP(U,4)` is accepted (`spam_prevention` returns `true`)
and appended to the queue, not rejected: the different-id threshold is
`max_false = 5`, not 2. -/
theorem fourth_distinct_user_beatmap_accepted :
    spam_prevention
      [⟨"a1", sampleUser 7, 0, .AddUserBeatmap (.Id 1)⟩,
       ⟨"a2", sampleUser 7, 0, .AddUserBeatmap (.Id 2)⟩,
       ⟨"a3", sampleUser 7, 0, .AddUserBeatmap (.Id 3)⟩]
      ⟨"a4", sampleUser 7, 0, .AddUserBeatmap (.Id 4)⟩ = true ∧
    add_new_activity_to_queue 50
      [⟨"a1", sampleUser 7, 0, .AddUserBeatmap (.Id 1)⟩,
       ⟨"a2", sampleUser 7, 0, .AddUserBeatmap (.Id 2)⟩,
       ⟨"a3", sampleUser 7, 0, .AddUserBeatmap (.Id 3)⟩]
      ⟨"a4", sampleUser 7, 0, .AddUserBeatmap (.Id 4)⟩ ≠
      [⟨"a1", sampleUser 7, 0, .AddUserBeatmap (.Id 1)⟩,
       ⟨"a2", sampleUser 7, 0, .AddUserBeatmap (.Id 2)⟩,
       ⟨"a3", sampleUser 7, 0, .AddUserBeatmap (.Id 3)⟩] := by
  refine ⟨rfl, by decide⟩

/-- C3, amended: a new `ADD_USER_BEATMAP` is rejected exactly when the
queue already contains, by the same actor, a prior `ADD_USER_BEATMAP`
with the same beatmap id, or at least 6 prior `ADD_USER_BEATMAP` entries
with beatmap ids different from the new one (the scan's counter
`current_false` stops growing at `max_false = 5`, so the 6th different-id
entry triggers the rejection). -/
theorem addUserBeatmap_rejected_iff_same_id_or_six_distinct
    (queue : List Activity) (i : String) (u : UserSmall) (t : Nat)
    (new_beatmap : BeatmapEnum) :
    spam_prevention queue ⟨i, u, t, .AddUserBeatmap new_beatmap⟩ = false ↔
      (∃ old ∈ queue, aubSameId u.id new_beatmap.get_id old = true) ∨
        6 ≤ (queue.filter (aubDiffId u.id new_beatmap.get_id)).length := by
  have h := aubScan_characterization u.id new_beatmap.get_id queue 0 (by omega)
  simp only [spam_prevention, Bool.not_eq_false']
  rw [h, Nat.add_zero]

/-! ## Claim C4 — retry cooldown sequence -/

lemma sleeps_frozen (L : Nat) (s : RetryState) (hs : L < s.cooldown) :
    ∀ n, sleeps L s n = List.replicate n L := by
  intro n
  induction n with
  | zero => rfl
  | succ n ih =>
    simp [sleeps, retryStep, hs, ih, List.replicate_succ]

lemma sleeps_fib (L : Nat) :
    ∀ (n i : Nat),
      sleeps L ⟨Nat.fib i, Nat.fib (i + 1)⟩ n =
        (List.range n).map fun j =>
          if Nat.fib (i + j + 1) ≤ L then Nat.fib (i + j + 2) else L := by
  intro n
  induction n with
  | zero => intro i; rfl
  | succ n ih =>
    intro i
    by_cases hc : Nat.fib (i + 1) ≤ L
    · have hstep : retryStep L ⟨Nat.fib i, Nat.fib (i + 1)⟩ =
          (Nat.fib (i + 2), ⟨Nat.fib (i + 1), Nat.fib (i + 2)⟩) := by
        simp [retryStep, Nat.not_lt.mpr hc, Nat.fib_add_two, Nat.add_comm]
      rw [sleeps, hstep]
      simp only [ih (i + 1), List.range_succ_eq_map, List.map_cons, List.map_map]
      refine congrArg₂ _ ?_ ?_
      · simp [hc]
      · refine List.map_congr_left fun j _ => ?_
        have h1 : i + 1 + j + 1 = i + (j + 1) + 1 := by omega
        have h2 : i + 1 + j + 2 = i + (j + 1) + 2 := by omega
        simp [Function.comp, h1, h2]
    · have hc' : L < Nat.fib (i + 1) := Nat.not_le.mp hc
      rw [sleeps_frozen L _ hc']
      have hall : ∀ j ∈ List.range (n + 1),
          (if Nat.fib (i + j + 1) ≤ L then Nat.fib (i + j + 2) else L) = L := by
        intro j _
        have : Nat.fib (i + 1) ≤ Nat.fib (i + j + 1) :=
          Nat.fib_mono (by omega)
        rw [if_neg (by omega)]
      rw [List.map_congr_left hall]
      simp [List.map_const']

/-- C4, counterexample: with `longest_cooldown = 4` and five consecutive
failures, the slept durations are `[1, 2, 3, 5, 4]`, not the claimed
capped Fibonacci prefix `[1, 1, 2, 3, 4]`: the second sleep is 2 seconds
(the code advances the Fibonacci pair before sleeping, skipping the
repeated 1), and the fourth sleep of 5 seconds exceeds the cap of 4 (the
cap is applied only when the stored cooldown already exceeds it). -/
theorem retry_sleep_sequence_at_cap_four :
    sleeps 4 retryInit 5 = [1, 2, 3, 5, 4] ∧
    ([1, 2, 3, 5, 4] : List Nat) ≠ [1, 1, 2, 3, 4] ∧
    ∃ slept ∈ sleeps 4 retryInit 5, 4 < slept := by
  refine ⟨rfl, by decide, by decide⟩

/-- C4, amended: over `n` consecutive failures with retry semantics,
`retry_until_success(longest_cooldown, …)` returns the success value
unchanged (it cannot return an error), and the `i`-th slept duration
(0-based) is `fib (i+2)` of the Fibonacci sequence `1, 2, 3, 5, 8, 13,
21, 34, 55, …` as long as the pre-sleep cooldown `fib (i+1)` has not
exceeded `longest_cooldown`; the first Fibonacci value exceeding the cap
is slept in full once, and every later sleep is exactly
`longest_cooldown`. -/
theorem retry_sleep_sequence_formula {V : Type} (longest_cooldown n : Nat) (v : V) :
    retry_until_success longest_cooldown n v =
      (v, (List.range n).map fun i =>
        if Nat.fib (i + 1) ≤ longest_cooldown then Nat.fib (i + 2)
        else longest_cooldown) := by
  have hinit : retryInit = RetryState.mk (Nat.fib 0) (Nat.fib 1) := by
    simp [retryInit, Nat.fib_zero, Nat.fib_one]
  rw [retry_until_success, hinit, sleeps_fib]
  simp

/-! ## Claim C5 — bio length check -/

/-- C5, counterexample: a 5001-byte bio sent to `PATCH /users/bio` is not
rejected — `update_user_bio` has no length check, so the bio is stored
as sent and the stored value does change. -/
theorem overlong_bio_is_stored :
    5000 < (String.mk (List.replicate 5001 'a')).length ∧
    update_user_bio 42 (String.mk (List.replicate 5001 'a'))
        ([(42, "short")] : BioTable) =
      .ok ([(42, String.mk (List.replicate 5001 'a'))] : BioTable) := by
  constructor
  · have hlen : (String.mk (List.replicate 5001 'a')).length = 5001 := by
      show (List.replicate 5001 'a').length = 5001
      exact List.length_replicate 5001 'a'
    omega
  · rfl

/-- C5, amended: the `> 5000` bytes → `StringTooLong` check guards the
influence-description update (`PATCH /influence/{id}/description`), not
the bio update: `update_influence_description` fails with `StringTooLong`
exactly when the description exceeds 5000 bytes (and then nothing is
written), `StringTooLong` maps to HTTP 422, while `update_user_bio`
forwards any bio to the database with no length check at all. -/
theorem string_too_long_guards_influence_description
    (auth_user_id influenced_to : Nat) (description bio : String)
    (idb : InfluenceTable) (bdb : BioTable) :
    (update_influence_description auth_user_id influenced_to description idb =
        .error .StringTooLong ↔ 5000 < description.length) ∧
    statusCode .StringTooLong = 422 ∧
    update_user_bio auth_user_id bio bdb = update_bio bdb auth_user_id bio := by
  refine ⟨?_, rfl, rfl⟩
  unfold update_influence_description db_update_influence_description
  split
  · simp_all
  · split <;> simp_all

/-! ## Claim C6 — upstream existence check of add-beatmaps -/

/-- C6: `check_multiple_maps` filters the *fetched* keys against the
submitted list instead of the submitted ids against the fetch result, so
it accepts a submission whose id 2 is absent upstream (fetched keys
`[1]` ⊆ submitted `[1, 2]` make the filter empty): the code returns `Ok`
where the claim (and the function's own "missing map warning" comment)
requires `NonExistingMap(2)`. -/
theorem check_multiple_maps_accepts_missing_id :
    check_multiple_maps [1, 2] [1] = .ok () := by
  rfl

/-! ## Claim C7 — session-token round trip -/

/-- C7: verifying a session token immediately after creating it with the
same key yields exactly the embedded payload
`{osu_token, user_id, username}`. -/
theorem session_token_round_trip (key : String) (id : Nat)
    (username osu_token : String) (duration now : Nat) (h : 0 < duration) :
    verify_jwt key (create_jwt key id username osu_token duration now) now =
      .ok ⟨osu_token, id, username⟩ := by
  have htime : now ≤ now + duration + 900 ∧ now ≤ now + 900 := by omega
  simp [create_jwt, verify_jwt, hmacTag, jwtTimeTolerance, htime]

/-- C7, witness: the round trip at a concrete input. -/
theorem session_token_round_trip_witness :
    0 < 3600 ∧
    verify_jwt "k" (create_jwt "k" 42 "name" "tok" 3600 1000) 1000 =
      .ok ⟨"tok", 42, "name"⟩ :=
  ⟨by decide, session_token_round_trip "k" 42 "name" "tok" 3600 1000 (by decide)⟩

/-! ## Claim C8 — TTL cache sweep and expiry -/

lemma discardExpiredStore_eq_dropWhile {K V : Type} (now ttl : Nat)
    (l : List (K × Nat × V)) :
    discardExpiredStore now ttl l =
      l.dropWhile fun entry => decide (ttl < now - entry.2.1) := by
  induction l with
  | nil => rfl
  | cons front rest ih =>
    by_cases h : ttl < now - front.2.1 <;>
      simp [discardExpiredStore, List.dropWhile_cons, h, ih]

/-- C8: every read sweeps from the insertion head, evicting exactly the
longest prefix of entries whose age strictly exceeds the TTL and stopping
at the first still-fresh entry (`discard_expired` equals a `dropWhile`),
and after `set(k,v)` at `t0` followed by a read at `t1` with
`t1 - t0 > TTL`, `get(k)` is `None`, the cache size after the read is 0,
and `get_multiple([k])` reports `k` as a miss. -/
theorem cache_read_sweeps_and_expires :
    (∀ (c : CustomCache Nat Nat) (now : Nat),
      (discard_expired now c).store =
        c.store.dropWhile fun entry => decide (c.expire_in < now - entry.2.1)) ∧
    ∀ (ttl k v t0 t1 : Nat), ttl < t1 - t0 →
      (cache_get t1 k (cache_set t0 k v (CustomCache.new Nat Nat ttl))).1 = none ∧
      cache_size (cache_get t1 k (cache_set t0 k v (CustomCache.new Nat Nat ttl))).2 = 0 ∧
      (get_multiple t1 [k] (cache_set t0 k v (CustomCache.new Nat Nat ttl))).1.hits = [] ∧
      (get_multiple t1 [k] (cache_set t0 k v (CustomCache.new Nat Nat ttl))).1.misses = [k] := by
  constructor
  · intro c now
    exact discardExpiredStore_eq_dropWhile now c.expire_in c.store
  · intro ttl k v t0 t1 h
    simp [cache_get, cache_set, CustomCache.new, discard_expired,
      discardExpiredStore, storeGet, cache_size, get_multiple, h]

/-- C8, witness: the expiry scenario at a concrete input (TTL 1 s, set at
0, read at 3). -/
theorem cache_read_sweeps_and_expires_witness :
    (1 : Nat) < 3 - 0 ∧
    ((cache_get 3 5 (cache_set 0 5 7 (CustomCache.new Nat Nat 1))).1 = none ∧
      cache_size (cache_get 3 5 (cache_set 0 5 7 (CustomCache.new Nat Nat 1))).2 = 0 ∧
      (get_multiple 3 [5] (cache_set 0 5 7 (CustomCache.new Nat Nat 1))).1.hits = [] ∧
      (get_multiple 3 [5] (cache_set 0 5 7 (CustomCache.new Nat Nat 1))).1.misses = [5]) :=
  ⟨by decide, cache_read_sweeps_and_expires.2 1 5 7 0 3 (by decide)⟩

/-! ## Claim C9 — queue capacity invariant -/

/-- C9: `add_new_activity_to_queue` preserves `len ≤ queue_size` (an
append at capacity evicts exactly the front element), and appending four
activities A, B, C, D to the empty queue with capacity 3 yields
`[B, C, D]` in order. -/
theorem queue_capacity_invariant_and_eviction :
    (∀ (queue_size : Nat) (queue : List Activity) (new_activity : Activity),
      queue.length ≤ queue_size →
      (add_new_activity_to_queue queue_size queue new_activity).length ≤ queue_size) ∧
    ∀ (A B C D : Activity),
      [A, B, C, D].foldl (add_new_activity_to_queue 3) [] = [B, C, D] := by
  constructor
  · intro queue_size queue new_activity h
    simp only [add_new_activity_to_queue]
    split
    · simp only [List.length_tail, List.length_append, List.length_singleton]
      omega
    · rename_i hfit
      simp only [List.length_append, List.length_singleton] at hfit ⊢
      omega
  · intro A B C D
    rfl

/-- C9, witness: the invariant applied at a concrete queue and capacity. -/
theorem queue_capacity_invariant_and_eviction_witness :
    ([] : List Activity).length ≤ 3 ∧
    (add_new_activity_to_queue 3 []
      ⟨"w", sampleUser 1, 0, .Login⟩).length ≤ 3 :=
  ⟨by decide,
    queue_capacity_invariant_and_eviction.1 3 []
      ⟨"w", sampleUser 1, 0, .Login⟩ (by decide)⟩

/-! ## Claim C10 — spam filter is a pure read; rejection leaves the
tracker untouched -/

/-- C10: `spam_prevention` locks and reads the queue but hands the
tracker state back unchanged, and in the streaming loop a rejected
activity is neither appended to the queue nor broadcast: the step leaves
the whole tracker state identical and broadcasts nothing. -/
theorem spam_prevention_pure_and_reject_frame :
    (∀ (s : TrackerState) (new_activity : Activity),
      (spamPreventionLocked s new_activity).2 = s) ∧
    ∀ (s : TrackerState) (new_activity : Activity)
      (fetch : Nat → Option OsuBeatmapSmall),
      spam_prevention s.activity_queue new_activity = false →
      stepLoop s new_activity fetch = (s, []) := by
  constructor
  · intro s new_activity
    rfl
  · intro s new_activity fetch h
    simp [stepLoop, h]

/-- C10, witness: a rejected activity (a `LOGIN` on the empty queue)
leaves the tracker state unchanged and broadcasts nothing. -/
theorem spam_prevention_pure_and_reject_frame_witness :
    spam_prevention (TrackerState.mk [] 50).activity_queue
      ⟨"l9", sampleUser 3, 0, .Login⟩ = false ∧
    stepLoop ⟨[], 50⟩ ⟨"l9", sampleUser 3, 0, .Login⟩ (fun _ => none) =
      (⟨[], 50⟩, []) :=
  ⟨by decide,
    spam_prevention_pure_and_reject_frame.2 ⟨[], 50⟩
      ⟨"l9", sampleUser 3, 0, .Login⟩ (fun _ => none) (by decide)⟩

end MapperInfluences
